import Mathlib

/-!
# Channel actions: the action registry of `server/app/action.go`

A shallow embedding of the action-type and trigger-type registry of package `app`
(`server/app/action.go`) and proofs about its text and database encodings.

Modelling conventions

* A Go `string` and a Go `[]byte` are both finite byte sequences, and the conversions
  `string(b)` and `[]byte(s)` keep the bytes; both are `GoString` here and the
  conversions are the identity.
* A Go `error` is represented by the text its `Error()` method returns; the `nil`
  error is `none`.
* A method with a pointer receiver (`UnmarshalText`, `Scan`) takes the value the
  receiver holds before the call and returns the value it holds afterwards
  together with the error.
* A method that can panic at run time (`String` indexes an array) returns an
  `Option`; `none` is the panic.
-/

namespace App

/-! ## Go values -/

/-- A Go `string` or `[]byte`: a finite sequence of bytes. -/
abbrev GoString := List UInt8

/-- The bytes of a Go string literal: the UTF-8 encoding of its source text. -/
def lit (s : String) : GoString := s.toUTF8.data.toList

/-- A non-nil Go `error`, represented by the text of its `Error()` method. -/
structure GoError where
  msg : GoString
  deriving DecidableEq, Repr

/-- The dynamic value held by an `interface{}`, as far as `Scan` distinguishes it:
a `[]byte`, a `string`, or a value of any other dynamic type (the untyped `nil`
included), of which only the renderings by the verbs `%v` and `%T` are observed. -/
inductive Src where
  | bytes (b : GoString)
  | str (s : GoString)
  | other (v : GoString) (T : GoString)
  deriving DecidableEq, Repr

/-! ## ActionType -/

/-- The declaration `type ActionType int`. -/
structure ActionType where
  val : Int
  deriving DecidableEq, Repr

def ActionTypeUnknown : ActionType := ⟨0⟩
def ActionTypeWelcomeMessage : ActionType := ⟨1⟩
def ActionTypePromptRunPlaybook : ActionType := ⟨2⟩
def ActionTypeCategorizeChannel : ActionType := ⟨3⟩

/-- The four constants of the `const ( ... iota ... )` block, in declaration order. -/
def declaredActionTypes : List ActionType :=
  [ActionTypeUnknown, ActionTypeWelcomeMessage, ActionTypePromptRunPlaybook,
   ActionTypeCategorizeChannel]

/-- The array `ActionTypes = [...]string{...}`: the keyed literal has keys 0, 1, 2, 3,
so the array has length 4 and holds the tokens in this order. -/
def ActionTypes : List GoString :=
  [ lit "",                        -- ActionTypeUnknown
    lit "send_welcome_message",    -- ActionTypeWelcomeMessage
    lit "prompt_run_playbook",     -- ActionTypePromptRunPlaybook
    lit "categorize_channel" ]     -- ActionTypeCategorizeChannel

/-- The method `String`: `return ActionTypes[a]`. Indexing outside the array panics (`none`). -/
def ActionType.String (a : ActionType) : Option GoString :=
  if a.val < 0 then none else ActionTypes[a.val.toNat]?

/-- The method `MarshalText`: `return []byte(a.String()), nil`. -/
def ActionType.MarshalText (a : ActionType) : Option (GoString × Option GoError) :=
  match a.String with
  | none => none
  | some s => some (s, none)

/-- The error `fmt.Errorf("unknown action type: %s", string(text))`. -/
def unknownActionTypeError (text : GoString) : GoError :=
  ⟨lit "unknown action type: " ++ text⟩

/-- The loop `for i, ct := range ActionTypes` of `UnmarshalText`, over the entries
still to visit, `i` being the index of the first of them. -/
def UnmarshalText.loop (a : ActionType) (text : GoString) :
    List GoString → Nat → ActionType × Option GoError
  | [], _ => (a, some (unknownActionTypeError text))
  | ct :: rest, i =>
      if ct = text then (⟨(i : Int)⟩, none)
      else UnmarshalText.loop a text rest (i + 1)

/-- The method `UnmarshalText`: the receiver after the call, and the error. -/
def ActionType.UnmarshalText (a : ActionType) (text : GoString) :
    ActionType × Option GoError :=
  UnmarshalText.loop a text ActionTypes 0

/-- The error `fmt.Errorf("could not cast action type to []byte: %v %T", src, src)`,
from the two renderings of `src`. -/
def couldNotCastError (v T : GoString) : GoError :=
  ⟨lit "could not cast action type to []byte: " ++ v ++ lit " " ++ T⟩

/-- The method `Scan`: the receiver after the call, and the error. -/
def ActionType.Scan (a : ActionType) (src : Src) : ActionType × Option GoError :=
  match src with
  | .bytes txt => a.UnmarshalText txt
  | .str txtStr => a.UnmarshalText txtStr
  | .other v T => (a, some (couldNotCastError v T))

/-- The method `Value`: `return a.MarshalText()`, the bytes held as a `driver.Value`. -/
def ActionType.Value (a : ActionType) : Option (Src × Option GoError) :=
  match a.MarshalText with
  | none => none
  | some (text, err) => some (Src.bytes text, err)

/-! ## TriggerType -/

/-- The declaration `type TriggerType string`. -/
structure TriggerType where
  val : GoString
  deriving DecidableEq, Repr

def TriggerTypeNewMemberJoins : TriggerType := ⟨lit "new_member_joins"⟩
def TriggerTypeKeywordsPosted : TriggerType := ⟨lit "keywords"⟩

/-- The slice `ValidTriggerTypes`. -/
def ValidTriggerTypes : List TriggerType :=
  [TriggerTypeNewMemberJoins, TriggerTypeKeywordsPosted]

/-- The token of a trigger type. `TriggerType` is a defined string type on which the
file declares no `String`, `MarshalText` or `Value` method, so the token written for
`t` is the conversion `string(t)`. -/
def TriggerType.token (t : TriggerType) : GoString := t.val

/-! ## Canonical tokens -/

/-- A byte that is one of the characters `a` to `z` or `_`. -/
def isLowerSnakeByte (b : UInt8) : Bool :=
  ('a'.toNat ≤ b.toNat && b.toNat ≤ 'z'.toNat) || b.toNat == '_'.toNat

/-- A non-empty token made only of the characters `a` to `z` and `_`. -/
def isLowerSnake (s : GoString) : Bool :=
  !s.isEmpty && s.all isLowerSnakeByte

/-! ## Actions and their validation -/

/-- The struct `WelcomeMessagePayload`. -/
structure WelcomeMessagePayload where
  Message : GoString
  deriving DecidableEq, Repr

/-- The struct `PromptRunPlaybookFromKeywordsPayload`. -/
structure PromptRunPlaybookFromKeywordsPayload where
  Keywords : List GoString
  PlaybookID : GoString
  deriving DecidableEq, Repr

/-- The struct `CategorizeChannelPayload`. -/
structure CategorizeChannelPayload where
  CategoryName : GoString
  deriving DecidableEq, Repr

/-- The field `Payload interface{}` of an action: a value of one of the three payload
shapes, or a value of no payload shape. -/
inductive Payload where
  | welcomeMessage (p : WelcomeMessagePayload)
  | promptRunPlaybook (p : PromptRunPlaybookFromKeywordsPayload)
  | categorizeChannel (p : CategorizeChannelPayload)
  | other
  deriving DecidableEq, Repr

/-- The struct `GenericChannelActionWithoutPayload`. -/
structure GenericChannelActionWithoutPayload where
  ID : GoString
  ChannelID : GoString
  Enabled : Bool
  DeleteAt : Int
  ActionType : ActionType
  TriggerType : TriggerType
  deriving DecidableEq, Repr

/-- The struct `GenericChannelAction`. -/
structure GenericChannelAction extends GenericChannelActionWithoutPayload where
  Payload : Payload
  deriving DecidableEq, Repr

/-- The failure of one of the four rules of the validator, in the order of the rules. -/
inductive ValidationError where
  | unknownActionType
  | invalidTriggerType
  | pairingNotPermitted
  | invalidPayload
  deriving DecidableEq, Repr

/-- What the description of the validator leaves open: the table of permitted
(action type, trigger type) pairings, of which only examples are given, and when a
text counts as blank. -/
structure ValidateRules where
  permitted : ActionType → TriggerType → Bool
  blank : GoString → Bool

/-- Modelled from the spec: rule 4 of `Validate`, whose implementation is not among the
sources. The payload, read according to the action type, has all required fields
non-blank: the message for a welcome message; at least one non-blank keyword and a
non-blank playbook reference for a playbook prompt; the category name for a
categorisation. -/
def payloadValid (rules : ValidateRules) (t : ActionType) (p : Payload) : Bool :=
  if t = ActionTypeWelcomeMessage then
    match p with
    | .welcomeMessage w => !rules.blank w.Message
    | _ => false
  else if t = ActionTypePromptRunPlaybook then
    match p with
    | .promptRunPlaybook k => k.Keywords.any (fun w => !rules.blank w) && !rules.blank k.PlaybookID
    | _ => false
  else if t = ActionTypeCategorizeChannel then
    match p with
    | .categorizeChannel c => !rules.blank c.CategoryName
    | _ => false
  else false

/-- Modelled from the spec: the method `ChannelActionService.Validate`, of which the
sources hold only the declaration in the interface. The four rules are applied in
order and the first failure wins: the action type is not `Unknown`; the trigger type
is a member of `ValidTriggerTypes`; the pairing is permitted; the payload is valid for
the action type. `none` is the `nil` error. -/
def Validate (rules : ValidateRules) (action : GenericChannelAction) : Option ValidationError :=
  if action.ActionType = ActionTypeUnknown then some .unknownActionType
  else if action.TriggerType ∉ ValidTriggerTypes then some .invalidTriggerType
  else if !rules.permitted action.ActionType action.TriggerType then some .pairingNotPermitted
  else if !payloadValid rules action.ActionType action.Payload then some .invalidPayload
  else none

/-! ## Lemmas on the decoding loop -/

theorem UnmarshalText.loop_of_not_mem (a : ActionType) (text : GoString) :
    ∀ (l : List GoString) (i : Nat), text ∉ l →
      UnmarshalText.loop a text l i = (a, some (unknownActionTypeError text)) := by
  intro l
  induction l with
  | nil => intro i _; rfl
  | cons ct rest ih =>
      intro i h
      have h1 : ct ≠ text := fun e => h (by simp [e])
      have h2 : text ∉ rest := fun m => h (List.mem_cons_of_mem _ m)
      simp [UnmarshalText.loop, h1, ih (i + 1) h2]

theorem UnmarshalText.loop_of_mem (a : ActionType) (text : GoString) :
    ∀ (l : List GoString) (i : Nat), text ∈ l →
      ∃ j : Nat, l[j]? = some text ∧ (∀ k, k < j → l[k]? ≠ some text) ∧
        UnmarshalText.loop a text l i = (⟨((i + j : Nat) : Int)⟩, none) := by
  intro l
  induction l with
  | nil => intro i h; simp at h
  | cons ct rest ih =>
      intro i h
      by_cases e : ct = text
      · refine ⟨0, by simp [e], by intro k hk; omega, ?_⟩
        simp [UnmarshalText.loop, e]
      · have h2 : text ∈ rest := by
          rcases List.mem_cons.mp h with h3 | h3
          · exact absurd h3.symm e
          · exact h3
        obtain ⟨j, hj, hmin, hloop⟩ := ih (i + 1) h2
        refine ⟨j + 1, by simpa using hj, ?_, ?_⟩
        · intro k hk
          cases k with
          | zero => simpa using e
          | succ k => simpa using hmin k (by omega)
        · rw [UnmarshalText.loop, if_neg e, hloop]
          congr 2
          omega

/-- A successful decode does not depend on what the receiver held. -/
theorem UnmarshalText.loop_receiver (a b : ActionType) (text : GoString) :
    ∀ (l : List GoString) (i : Nat), text ∈ l →
      UnmarshalText.loop a text l i = UnmarshalText.loop b text l i := by
  intro l
  induction l with
  | nil => intro i h; simp at h
  | cons ct rest ih =>
      intro i h
      by_cases e : ct = text
      · simp [UnmarshalText.loop, e]
      · have h2 : text ∈ rest := by
          rcases List.mem_cons.mp h with h3 | h3
          · exact absurd h3.symm e
          · exact h3
        simp only [UnmarshalText.loop, if_neg e]
        exact ih (i + 1) h2

theorem UnmarshalText_receiver (a b : ActionType) (text : GoString) (h : text ∈ ActionTypes) :
    a.UnmarshalText text = b.UnmarshalText text :=
  UnmarshalText.loop_receiver a b text ActionTypes 0 h

theorem UnmarshalText_of_not_mem (a : ActionType) (text : GoString) (h : text ∉ ActionTypes) :
    a.UnmarshalText text = (a, some (unknownActionTypeError text)) :=
  UnmarshalText.loop_of_not_mem a text ActionTypes 0 h

/-- A decode that returns a nil error stopped at the first index of the table whose
entry equals the text, and left that index in the receiver. -/
theorem UnmarshalText_ok_index (r a : ActionType) (text : GoString)
    (h : r.UnmarshalText text = (a, none)) :
    ∃ j : Nat, ActionTypes[j]? = some text ∧ (∀ k, k < j → ActionTypes[k]? ≠ some text) ∧
      a = ⟨(j : Int)⟩ := by
  by_cases hmem : text ∈ ActionTypes
  · obtain ⟨j, hj, hmin, hloop⟩ := UnmarshalText.loop_of_mem r text ActionTypes 0 hmem
    refine ⟨j, hj, hmin, ?_⟩
    rw [ActionType.UnmarshalText, hloop] at h
    have e := congrArg Prod.fst h
    simp only [Nat.zero_add] at e
    exact e.symm
  · rw [UnmarshalText_of_not_mem r text hmem] at h
    have e := congrArg Prod.snd h
    simp at e

/-- On a value that is a natural number, `String` is the lookup in the table. -/
theorem String_natCast (j : Nat) : ActionType.String ⟨(j : Int)⟩ = ActionTypes[j]? := by
  have h : ¬ ((j : Int) < 0) := by omega
  simp [ActionType.String, h]

/-! ## The text encoding of `ActionType` -/

/-- C1: for each of the four declared action types `a` and whatever the receiver `r`
held before, `MarshalText` returns bytes with a nil error, and `UnmarshalText` on
those bytes returns a nil error and leaves the receiver holding exactly `a`. -/
theorem unmarshalText_marshalText_roundtrip (a : ActionType)
    (ha : a ∈ declaredActionTypes) (r : ActionType) :
    ∃ text, a.MarshalText = some (text, none) ∧ r.UnmarshalText text = (a, none) := by
  simp only [declaredActionTypes, List.mem_cons, List.mem_singleton, List.not_mem_nil,
    or_false] at ha
  rcases ha with rfl | rfl | rfl | rfl
  · refine ⟨lit "", by decide, ?_⟩
    rw [UnmarshalText_receiver r ActionTypeUnknown _ (by decide)]
    decide
  · refine ⟨lit "send_welcome_message", by decide, ?_⟩
    rw [UnmarshalText_receiver r ActionTypeUnknown _ (by decide)]
    decide
  · refine ⟨lit "prompt_run_playbook", by decide, ?_⟩
    rw [UnmarshalText_receiver r ActionTypeUnknown _ (by decide)]
    decide
  · refine ⟨lit "categorize_channel", by decide, ?_⟩
    rw [UnmarshalText_receiver r ActionTypeUnknown _ (by decide)]
    decide

theorem unmarshalText_marshalText_roundtrip_witness :
    ActionTypePromptRunPlaybook ∈ declaredActionTypes ∧
      ∃ text, ActionTypePromptRunPlaybook.MarshalText = some (text, none) ∧
        ActionTypeCategorizeChannel.UnmarshalText text = (ActionTypePromptRunPlaybook, none) :=
  ⟨by decide,
   unmarshalText_marshalText_roundtrip ActionTypePromptRunPlaybook (by decide)
     ActionTypeCategorizeChannel⟩

/-- C2: for every byte string `text` and receiver `a`, `UnmarshalText` returns a
non-nil error if and only if `text` equals no entry of the `ActionTypes` table, and
in that case the message of the error is "unknown action type: " followed by
`text`. -/
theorem unmarshalText_error_iff (a : ActionType) (text : GoString) :
    ((a.UnmarshalText text).2 ≠ none ↔ text ∉ ActionTypes) ∧
    (text ∉ ActionTypes →
      (a.UnmarshalText text).2 = some ⟨lit "unknown action type: " ++ text⟩) := by
  by_cases h : text ∈ ActionTypes
  · obtain ⟨j, _, _, hj⟩ := UnmarshalText.loop_of_mem a text ActionTypes 0 h
    have e : (a.UnmarshalText text).2 = none := by
      rw [ActionType.UnmarshalText, hj]
    exact ⟨⟨fun hne => absurd e hne, fun hn => absurd h hn⟩, fun hn => absurd h hn⟩
  · have e := UnmarshalText_of_not_mem a text h
    refine ⟨⟨fun _ => h, fun _ => ?_⟩, fun _ => ?_⟩
    · rw [e]; simp
    · rw [e]; rfl

theorem unmarshalText_error_iff_witness :
    lit "archive_channel" ∉ ActionTypes ∧
      (ActionTypeWelcomeMessage.UnmarshalText (lit "archive_channel")).2 =
        some ⟨lit "unknown action type: " ++ lit "archive_channel"⟩ :=
  ⟨by decide,
   (unmarshalText_error_iff ActionTypeWelcomeMessage (lit "archive_channel")).2 (by decide)⟩

/-- C3: for every action type `a` of integer value 0 through 3, the index of `String`
is within the `ActionTypes` table and `String` returns the token at that index,
`MarshalText` returns the bytes of that token with a nil error, and `Value` returns
the same bytes with a nil error. -/
theorem encoding_total (a : ActionType) (h0 : 0 ≤ a.val) (h3 : a.val ≤ 3) :
    ∃ tok, a.val.toNat < ActionTypes.length ∧ ActionTypes[a.val.toNat]? = some tok ∧
      a.String = some tok ∧ a.MarshalText = some (tok, none) ∧
      a.Value = some (Src.bytes tok, none) := by
  obtain ⟨v⟩ := a
  simp only at h0 h3
  have hv : v = 0 ∨ v = 1 ∨ v = 2 ∨ v = 3 := by omega
  rcases hv with rfl | rfl | rfl | rfl
  · exact ⟨lit "", by decide, by decide, by decide, by decide, by decide⟩
  · exact ⟨lit "send_welcome_message", by decide, by decide, by decide, by decide, by decide⟩
  · exact ⟨lit "prompt_run_playbook", by decide, by decide, by decide, by decide, by decide⟩
  · exact ⟨lit "categorize_channel", by decide, by decide, by decide, by decide, by decide⟩

theorem encoding_total_witness :
    ∃ tok, ActionTypeCategorizeChannel.val.toNat < ActionTypes.length ∧
      ActionTypes[ActionTypeCategorizeChannel.val.toNat]? = some tok ∧
      ActionTypeCategorizeChannel.String = some tok ∧
      ActionTypeCategorizeChannel.MarshalText = some (tok, none) ∧
      ActionTypeCategorizeChannel.Value = some (Src.bytes tok, none) :=
  encoding_total ActionTypeCategorizeChannel (by decide) (by decide)

/-- C4: among the declared action types, `String` returns the empty string exactly
for `ActionTypeUnknown`; whenever `UnmarshalText` succeeds and leaves the receiver
holding `ActionTypeWelcomeMessage`, `ActionTypePromptRunPlaybook` or
`ActionTypeCategorizeChannel`, the token was not empty; and decoding the empty token
succeeds with `ActionTypeUnknown`. -/
theorem empty_token_only_unknown :
    (∀ a ∈ declaredActionTypes, (a.String = some [] ↔ a = ActionTypeUnknown)) ∧
    (∀ (r a : ActionType) (text : GoString), r.UnmarshalText text = (a, none) →
      a ∈ [ActionTypeWelcomeMessage, ActionTypePromptRunPlaybook,
        ActionTypeCategorizeChannel] → text ≠ []) ∧
    (∀ r : ActionType, r.UnmarshalText [] = (ActionTypeUnknown, none)) := by
  have hempty : ∀ r : ActionType, r.UnmarshalText [] = (ActionTypeUnknown, none) := by
    intro r
    rw [UnmarshalText_receiver r ActionTypeUnknown [] (by decide)]
    decide
  refine ⟨by decide, ?_, hempty⟩
  intro r a text h ha ht
  subst ht
  rw [hempty r] at h
  have e : a = ActionTypeUnknown := (congrArg Prod.fst h).symm
  subst e
  revert ha
  decide

theorem empty_token_only_unknown_witness :
    ActionTypeUnknown.UnmarshalText (lit "categorize_channel") =
        (ActionTypeCategorizeChannel, none) ∧
      lit "categorize_channel" ≠ [] :=
  ⟨by decide,
   empty_token_only_unknown.2.1 ActionTypeUnknown ActionTypeCategorizeChannel
     (lit "categorize_channel") (by decide) (by decide)⟩

/-- C5: the token of `ActionTypeWelcomeMessage` is exactly "send_welcome_message", the
token of `TriggerTypeNewMemberJoins` is exactly "new_member_joins", and the token of
every declared action type other than `ActionTypeUnknown` and of every member of
`ValidTriggerTypes` is non-empty and made only of the characters `a` to `z` and `_`. -/
theorem tokens_lower_snake :
    ActionTypeWelcomeMessage.String = some (lit "send_welcome_message") ∧
    TriggerTypeNewMemberJoins.token = lit "new_member_joins" ∧
    (∀ a ∈ declaredActionTypes, a ≠ ActionTypeUnknown →
      ∃ tok, a.String = some tok ∧ isLowerSnake tok = true) ∧
    (∀ t ∈ ValidTriggerTypes, isLowerSnake t.token = true) := by
  refine ⟨by decide, by decide, ?_, by decide⟩
  intro a ha hne
  simp only [declaredActionTypes, List.mem_cons, List.mem_singleton, List.not_mem_nil,
    or_false] at ha
  rcases ha with rfl | rfl | rfl | rfl
  · exact absurd rfl hne
  · exact ⟨lit "send_welcome_message", by decide, by decide⟩
  · exact ⟨lit "prompt_run_playbook", by decide, by decide⟩
  · exact ⟨lit "categorize_channel", by decide, by decide⟩

theorem tokens_lower_snake_witness :
    ActionTypePromptRunPlaybook ∈ declaredActionTypes ∧
      ActionTypePromptRunPlaybook ≠ ActionTypeUnknown ∧
      ∃ tok, ActionTypePromptRunPlaybook.String = some tok ∧ isLowerSnake tok = true :=
  ⟨by decide, by decide,
   tokens_lower_snake.2.2.1 ActionTypePromptRunPlaybook (by decide) (by decide)⟩

/-! ## The database encoding of `ActionType` -/

/-- C6: for each of the four declared action types `a` and whatever the receiver `r`
held before, `Value` returns a value with a nil error, and `Scan` on that value
returns a nil error and leaves the receiver holding exactly `a`. -/
theorem scan_value_roundtrip (a : ActionType) (ha : a ∈ declaredActionTypes)
    (r : ActionType) :
    ∃ v, a.Value = some (v, none) ∧ r.Scan v = (a, none) := by
  simp only [declaredActionTypes, List.mem_cons, List.mem_singleton, List.not_mem_nil,
    or_false] at ha
  rcases ha with rfl | rfl | rfl | rfl
  · refine ⟨Src.bytes (lit ""), by decide, ?_⟩
    show r.UnmarshalText (lit "") = _
    rw [UnmarshalText_receiver r ActionTypeUnknown _ (by decide)]
    decide
  · refine ⟨Src.bytes (lit "send_welcome_message"), by decide, ?_⟩
    show r.UnmarshalText (lit "send_welcome_message") = _
    rw [UnmarshalText_receiver r ActionTypeUnknown _ (by decide)]
    decide
  · refine ⟨Src.bytes (lit "prompt_run_playbook"), by decide, ?_⟩
    show r.UnmarshalText (lit "prompt_run_playbook") = _
    rw [UnmarshalText_receiver r ActionTypeUnknown _ (by decide)]
    decide
  · refine ⟨Src.bytes (lit "categorize_channel"), by decide, ?_⟩
    show r.UnmarshalText (lit "categorize_channel") = _
    rw [UnmarshalText_receiver r ActionTypeUnknown _ (by decide)]
    decide

theorem scan_value_roundtrip_witness :
    ActionTypeWelcomeMessage ∈ declaredActionTypes ∧
      ∃ v, ActionTypeWelcomeMessage.Value = some (v, none) ∧
        ActionTypeUnknown.Scan v = (ActionTypeWelcomeMessage, none) :=
  ⟨by decide,
   scan_value_roundtrip ActionTypeWelcomeMessage (by decide) ActionTypeUnknown⟩

/-- C7: for every receiver `r` and byte string `b`, `Scan` of the `[]byte` `b` and
`Scan` of the `string` `b` both have the result and the effect on the receiver of
`UnmarshalText` of `b`; for a source of any other dynamic type `Scan` returns a
non-nil error and leaves the receiver unchanged. -/
theorem scan_sources (r : ActionType) :
    (∀ b : GoString, r.Scan (Src.bytes b) = r.UnmarshalText b ∧
      r.Scan (Src.str b) = r.UnmarshalText b) ∧
    (∀ v T : GoString, ∃ e : GoError, r.Scan (Src.other v T) = (r, some e)) :=
  ⟨fun _ => ⟨rfl, rfl⟩, fun v T => ⟨couldNotCastError v T, rfl⟩⟩

/-! ## TriggerType -/

/-- C8: a trigger type is a member of `ValidTriggerTypes` if and only if it is
`TriggerTypeNewMemberJoins` or `TriggerTypeKeywordsPosted`; the list has no
duplicates; and the tokens of the two trigger types are distinct. -/
theorem validTriggerTypes_closed :
    (∀ t : TriggerType, t ∈ ValidTriggerTypes ↔
      t = TriggerTypeNewMemberJoins ∨ t = TriggerTypeKeywordsPosted) ∧
    ValidTriggerTypes.Nodup ∧
    TriggerTypeNewMemberJoins.token ≠ TriggerTypeKeywordsPosted.token := by
  refine ⟨fun t => ?_, by decide, by decide⟩
  simp [ValidTriggerTypes]

/-! ## Validation -/

/-- C10: for every action whose action type is `ActionTypeUnknown`, whatever its
trigger type and payload (and whatever the pairing table and the notion of blank
text), `Validate` returns an error. -/
theorem validate_unknown_actionType (rules : ValidateRules) (action : GenericChannelAction)
    (h : action.ActionType = ActionTypeUnknown) :
    Validate rules action = some ValidationError.unknownActionType ∧
      Validate rules action ≠ none := by
  have e : Validate rules action = some ValidationError.unknownActionType := by
    simp [Validate, h]
  exact ⟨e, by rw [e]; simp⟩

theorem validate_unknown_actionType_witness :
    Validate ⟨fun _ _ => true, fun s => s.isEmpty⟩
        ⟨⟨lit "a1", lit "c1", true, 0, ActionTypeUnknown, TriggerTypeNewMemberJoins⟩,
          Payload.welcomeMessage ⟨lit "welcome"⟩⟩ = some ValidationError.unknownActionType ∧
      Validate ⟨fun _ _ => true, fun s => s.isEmpty⟩
        ⟨⟨lit "a1", lit "c1", true, 0, ActionTypeUnknown, TriggerTypeNewMemberJoins⟩,
          Payload.welcomeMessage ⟨lit "welcome"⟩⟩ ≠ none :=
  validate_unknown_actionType ⟨fun _ _ => true, fun s => s.isEmpty⟩
    ⟨⟨lit "a1", lit "c1", true, 0, ActionTypeUnknown, TriggerTypeNewMemberJoins⟩,
      Payload.welcomeMessage ⟨lit "welcome"⟩⟩ rfl

/-! ## Decoding then encoding, failed decodes, values outside the enumeration -/

/-- C11: whenever `UnmarshalText` returns a nil error, whatever the receiver held
before, the value it leaves in the receiver is one of the four declared action types
(its integer value is between 0 and 3), `String` of that value is the text, and the
index of every entry of `ActionTypes` equal to the text is that value; the table has
four entries and they are pairwise distinct. -/
theorem unmarshalText_then_string :
    (∀ (r a : ActionType) (text : GoString), r.UnmarshalText text = (a, none) →
      a ∈ declaredActionTypes ∧ (0 ≤ a.val ∧ a.val ≤ 3) ∧ a.String = some text ∧
        ∀ k : Nat, ActionTypes[k]? = some text → (k : Int) = a.val) ∧
    ActionTypes.length = 4 ∧ ActionTypes.Nodup := by
  refine ⟨?_, by decide, by decide⟩
  intro r a text h
  obtain ⟨j, hj, _, rfl⟩ := UnmarshalText_ok_index r a text h
  have hinj : ∀ m < 4, ∀ n < 4, ActionTypes[m]? = ActionTypes[n]? → m = n := by
    decide
  have hlt : ∀ n : Nat, ActionTypes[n]? = some text → n < 4 := by
    intro n hn
    by_contra hge
    have hnone : ActionTypes[n]? = none :=
      List.getElem?_eq_none (by simp [ActionTypes]; omega)
    rw [hnone] at hn
    simp at hn
  have hj4 : j < 4 := hlt j hj
  refine ⟨?_, ⟨by simp, by simp only; omega⟩, ?_, ?_⟩
  · have hcases : j = 0 ∨ j = 1 ∨ j = 2 ∨ j = 3 := by omega
    rcases hcases with rfl | rfl | rfl | rfl <;> decide
  · rw [String_natCast, hj]
  · intro k hk
    have e : k = j := hinj k (hlt k hk) j hj4 (by rw [hk, hj])
    simp [e]

theorem unmarshalText_then_string_witness :
    ActionTypeUnknown.UnmarshalText (lit "prompt_run_playbook") =
        (ActionTypePromptRunPlaybook, none) ∧
      (ActionTypePromptRunPlaybook ∈ declaredActionTypes ∧
        (0 ≤ ActionTypePromptRunPlaybook.val ∧ ActionTypePromptRunPlaybook.val ≤ 3) ∧
        ActionTypePromptRunPlaybook.String = some (lit "prompt_run_playbook") ∧
        ∀ k : Nat, ActionTypes[k]? = some (lit "prompt_run_playbook") →
          (k : Int) = ActionTypePromptRunPlaybook.val) :=
  ⟨by decide,
   unmarshalText_then_string.1 ActionTypeUnknown ActionTypePromptRunPlaybook
     (lit "prompt_run_playbook") (by decide)⟩

/-- C12: for every value `a0` held by the receiver and every byte string `text` for
which `UnmarshalText` returns a non-nil error, the receiver still holds `a0` after
the call. -/
theorem unmarshalText_error_keeps_receiver (a0 : ActionType) (text : GoString)
    (h : (a0.UnmarshalText text).2 ≠ none) :
    (a0.UnmarshalText text).1 = a0 := by
  by_cases hmem : text ∈ ActionTypes
  · obtain ⟨j, _, _, hloop⟩ := UnmarshalText.loop_of_mem a0 text ActionTypes 0 hmem
    rw [ActionType.UnmarshalText, hloop] at h
    exact absurd rfl h
  · rw [UnmarshalText_of_not_mem a0 text hmem]

theorem unmarshalText_error_keeps_receiver_witness :
    (ActionTypeCategorizeChannel.UnmarshalText (lit "Send_Welcome_Message")).2 ≠ none ∧
      (ActionTypeCategorizeChannel.UnmarshalText (lit "Send_Welcome_Message")).1 =
        ActionTypeCategorizeChannel :=
  ⟨by decide,
   unmarshalText_error_keeps_receiver ActionTypeCategorizeChannel
     (lit "Send_Welcome_Message") (by decide)⟩

/-- C13: for every action type whose integer value is negative or greater than 3, the
index of `String` is outside the four entries of `ActionTypes`, so `String` panics
and produces no token, and so do `MarshalText` and `Value`: none of them returns,
with or without an error value. -/
theorem encoding_outside_enumeration (a : ActionType) (h : a.val < 0 ∨ 3 < a.val) :
    ¬ (0 ≤ a.val ∧ a.val < (ActionTypes.length : Int)) ∧
      a.String = none ∧ a.MarshalText = none ∧ a.Value = none := by
  have hlen : ActionTypes.length = 4 := by decide
  have hs : a.String = none := by
    unfold ActionType.String
    by_cases hneg : a.val < 0
    · simp [hneg]
    · rw [if_neg hneg]
      exact List.getElem?_eq_none (by rw [hlen]; omega)
  have hm : a.MarshalText = none := by simp [ActionType.MarshalText, hs]
  refine ⟨?_, hs, hm, ?_⟩
  · rw [hlen]; omega
  · simp [ActionType.Value, hm]

theorem encoding_outside_enumeration_witness :
    ((4 : Int) < 0 ∨ (3 : Int) < 4) ∧
      (¬ (0 ≤ (ActionType.mk 4).val ∧ (ActionType.mk 4).val < (ActionTypes.length : Int)) ∧
        (ActionType.mk 4).String = none ∧ (ActionType.mk 4).MarshalText = none ∧
        (ActionType.mk 4).Value = none) :=
  ⟨by decide, encoding_outside_enumeration (ActionType.mk 4) (by decide)⟩

end App
